import Mathlib

/-!
Shallow embedding of the asynchronous-to-blocking database access pool in
`src/database/pool.rs` of the conduwuit homeserver, together with theorems
settling the specification claims about it.

Modelling conventions:
- A `Handle` (rust-rocksdb PinnableSlice) is represented by its byte content,
  tagged with a phantom `Lifetime` so that the lifetime-widening transmutes
  `into_send_result` and `into_recv_result` have the same typing structure as
  the source: the transmute changes only the lifetime tag, never the bytes.
- The oneshot result channel is modelled by its observable state: whether the
  receiver was already dropped when the worker runs its cancellation check
  (`recvDroppedAtCheck`) and whether it was dropped by the time the worker
  sends (`recvDroppedAtSend`).
- Effects of a worker dispatch (number of `get_blocking` calls, number of
  send attempts, value delivered, debug-assertion outcome) are recorded
  explicitly in a `GetEffects` record, so that at-most-once and elision
  properties are statable.
- The bounded command channel is modelled as the list of commands a worker
  drains; the blocking `recv` returns end-of-stream exactly when the channel
  is closed and the list is empty, which is the state `close` produces.
-/

namespace DbPool

/-- The two lifetimes relevant to a `Handle`: its true lifetime, bounded by
the storage engine, and the artificially widened (static) lifetime it is
declared to have while at rest in the oneshot channel. -/
inductive Lifetime where
  | engine
  | unbounded
deriving DecidableEq

/-- `Handle<'lt>`: a borrowed view onto a pinned buffer of the storage
engine, represented by its bytes; the lifetime parameter is phantom. -/
structure Handle (lt : Lifetime) where
  bytes : List Nat
deriving DecidableEq

/-- `conduit::Error`, restricted to the variants the pool produces or
forwards: storage-engine errors passed through verbatim, the submission
failure from `execute` when the channel send fails, the completion failure
when the oneshot receive fails, and a thread-spawn error from `new`. -/
inductive Error where
  | notFound
  | storage (code : Nat)
  | sendFailed
  | recvFailed
  | spawnFailed
deriving DecidableEq

/-- `KeyBuf`: an owned byte buffer. -/
abbrev Key := List Nat

/-- `Map`: an opaque reference to one column of the storage engine,
exposing the blocking point lookup `get_blocking(key) -> Result<Handle>`. -/
structure Map where
  get_blocking : Key → Except Error (Handle Lifetime.engine)

/-- `ResultSender = oneshot::Sender<Result<Handle<'static>>>`, identified
by an id; its channel state is modelled separately. -/
structure ResultSender where
  id : Nat
deriving DecidableEq

/-- The `Get` command: a map reference, an owned key, and the optional
result sender that `prepare` installs before enqueue. -/
structure Get where
  map : Map
  key : Key
  res : Option ResultSender

/-- `Cmd`: the command enumeration; the only variant in the source is
`Get`. -/
inductive Cmd where
  | get (g : Get)

/-- `into_send_result`: widens the handle lifetime to the unbounded
(static) tag so the result can cross the channel. The source transmute is
the identity on the representation; only the lifetime changes. -/
def into_send_result (r : Except Error (Handle Lifetime.engine)) :
    Except Error (Handle Lifetime.unbounded) :=
  r.map fun h => { bytes := h.bytes }

/-- `into_recv_result`: narrows the handle lifetime back on the receive
side. Again the identity on the representation. -/
def into_recv_result (r : Except Error (Handle Lifetime.unbounded)) :
    Except Error (Handle Lifetime.engine) :=
  r.map fun h => { bytes := h.bytes }

/-- Result of `prepare`: the updated command, and the previous sender that
`Option::insert` displaced (it is dropped without ever sending). -/
structure PrepareResult where
  cmd : Cmd
  dropped : Option ResultSender

/-- `Pool::prepare(cmd, send)`: installs the fresh oneshot sender into
`cmd.res` via `Option::insert`, which overwrites and drops any previous
value and never fails. -/
def prepare : Cmd → ResultSender → PrepareResult
  | Cmd.get g, send => { cmd := Cmd.get { g with res := some send }, dropped := g.res }

/-- Observable effects of one worker dispatch of a `Get` command. -/
structure GetEffects where
  /-- number of `map.get_blocking` invocations made for this command -/
  getCalls : Nat
  /-- number of `chan.send` invocations made for this command -/
  sendAttempts : Nat
  /-- the value actually delivered into the oneshot buffer, if delivery
  succeeded (`none` when no send happened or the receiver was gone) -/
  sent : Option (Except Error (Handle Lifetime.unbounded))
  /-- whether the `debug_assert` on a non-empty key fired -/
  assertKeyFailed : Bool
  /-- whether the worker panicked (the `expect` on a missing result
  channel) -/
  panicked : Bool
  /-- the `res` slot of the command afterwards (`take` leaves `none`) -/
  resAfter : Option ResultSender

/-- `Pool::handle_get(cmd)` for one `Get`, parameterised by the oneshot
channel state: whether the receiver was already dropped at the
`is_canceled` check, and whether it was dropped by the time of the send.
Mirrors the source order: the key debug-assertion first, then taking the
result channel, then the cancellation fast path, then the blocking query
and the send whose failure is ignored. -/
def handle_get (cmd : Get) (recvDroppedAtCheck recvDroppedAtSend : Bool) : GetEffects :=
  let assertKeyFailed := cmd.key.isEmpty
  match cmd.res with
  | none =>
      { getCalls := 0, sendAttempts := 0, sent := none,
        assertKeyFailed := assertKeyFailed, panicked := true, resAfter := none }
  | some _chan =>
      if recvDroppedAtCheck then
        { getCalls := 0, sendAttempts := 0, sent := none,
          assertKeyFailed := assertKeyFailed, panicked := false, resAfter := none }
      else
        let result := cmd.map.get_blocking cmd.key
        { getCalls := 1, sendAttempts := 1,
          sent := if recvDroppedAtSend then none else some (into_send_result result),
          assertKeyFailed := assertKeyFailed, panicked := false, resAfter := none }

/-- `Pool::worker_handle`: dispatch on the command variant. -/
def worker_handle (cmd : Cmd) (recvDroppedAtCheck recvDroppedAtSend : Bool) : GetEffects :=
  match cmd with
  | Cmd.get g => handle_get g recvDroppedAtCheck recvDroppedAtSend

/-- A queued command together with the oneshot channel state its submitter
side will exhibit when the worker reaches it. -/
structure GetTask where
  cmd : Cmd
  recvDroppedAtCheck : Bool
  recvDroppedAtSend : Bool

/-- `Pool::worker_loop`: `while let Ok(cmd) = recv.recv_blocking()` — the
worker dequeues commands one by one, handling each exactly once, and the
loop ends when the blocking receive returns end-of-stream (channel closed
and drained), here the empty list. -/
def worker_loop : List GetTask → List GetEffects
  | [] => []
  | t :: rest => worker_handle t.cmd t.recvDroppedAtCheck t.recvDroppedAtSend :: worker_loop rest

/-- The bounded-channel send in `execute`: fails exactly when the channel
is closed. -/
def sendCmd (channelClosed : Bool) : Except Error Unit :=
  if channelClosed then Except.error Error.sendFailed else Except.ok ()

/-- The oneshot receive in `execute`: yields the sent value, or the
completion failure when the sender was dropped without sending. -/
def recvAwait {α : Type} (reply : Option α) : Except Error α :=
  match reply with
  | none => Except.error Error.recvFailed
  | some a => Except.ok a

/-- `Pool::execute` after `prepare` and enqueue: the channel send with its
error mapped to a submission failure and propagated by the first question
mark, then the oneshot receive mapped through `into_recv_result` with its
error mapped to a completion failure and propagated by the second question
mark, whose payload (the result produced by the worker) is the return
value. -/
def execute (channelClosed : Bool)
    (reply : Option (Except Error (Handle Lifetime.unbounded))) :
    Except Error (Handle Lifetime.engine) :=
  match sendCmd channelClosed with
  | Except.error e => Except.error e
  | Except.ok _ =>
      match Except.map into_recv_result (recvAwait reply) with
      | Except.error e => Except.error e
      | Except.ok inner => inner

/-- One `Get` end-to-end through the pool: `execute` creates a fresh
oneshot channel and `prepare`s the command, the send either fails (closed
channel) or hands the command to a worker, the worker runs `handle_get`,
and the submitter receives whatever landed in the oneshot buffer. -/
def runGet (map : Map) (key : Key)
    (channelClosed recvDroppedAtCheck recvDroppedAtSend : Bool) :
    Except Error (Handle Lifetime.engine) :=
  let prep := prepare (Cmd.get { map := map, key := key, res := none }) { id := 0 }
  let reply := if channelClosed then none
    else (worker_handle prep.cmd recvDroppedAtCheck recvDroppedAtSend).sent
  execute channelClosed reply

/-- A mock map whose every lookup reports `NotFound`; used as a concrete
storage engine in witness instances. -/
def mockMap : Map := { get_blocking := fun _ => Except.error Error.notFound }

/-- A concrete `Get` command for the one-byte key b"k" carrying sender
id 0. -/
def sampleGet : Get := { map := mockMap, key := [107], res := some { id := 0 } }

/-- A concrete `Get` command with an empty key carrying sender id 0. -/
def emptyKeyGet : Get := { map := mockMap, key := [], res := some { id := 0 } }

/-- A concrete `Get` command whose `res` slot already holds sender id 5. -/
def preloadedGet : Get := { map := mockMap, key := [107], res := some { id := 5 } }

/-- `QUEUE_LIMIT`: bounds on the channel capacity. -/
def QUEUE_LIMIT : Nat × Nat := (1, 8192)

/-- `WORKER_LIMIT`: bounds on the worker count. -/
def WORKER_LIMIT : Nat × Nat := (1, 512)

/-- `Opts`: the construction arguments of the pool. -/
structure Opts where
  queue_size : Nat
  worker_num : Nat

/-- `usize::clamp(lo, hi)` on a natural number. -/
def rustClamp (x lo hi : Nat) : Nat :=
  if x < lo then lo else if x > hi then hi else x

/-- A worker join handle, recording its id and whether the thread
panicked (which `join` reports in `close`). -/
structure Worker where
  id : Nat
  panicked : Bool
deriving DecidableEq

/-- The state of a `Pool`: the channel capacity (fixed at construction),
whether the sending half has been closed, the commands currently queued in
the channel, and the worker join handles behind the mutex. -/
structure PoolState where
  capacity : Nat
  sendClosed : Bool
  queue : List GetTask
  workers : List Worker

/-- Result of the `spawn_until` / `spawn_one` loop: the ids of the worker
threads spawned (each `spawn_one` pushes a join handle whose id is the
current vector length), the number of `Builder::spawn` invocations made,
and whether the loop aborted with an error. -/
structure SpawnResult where
  workers : List Nat
  attempts : Nat
  failed : Bool
deriving DecidableEq

/-- The `while workers.len() < max` loop of `spawn_until`, with
`spawn_one` inlined. `budget` models the operating system: the number of
thread spawns that succeed before one fails. On a failed spawn the
question mark propagates the error immediately: no retry, and the workers
already pushed stay in the vector. -/
def spawnLoop (budget max : Nat) (workers : List Nat) (attempts : Nat) : SpawnResult :=
  if workers.length < max then
    if workers.length < budget then
      spawnLoop budget max (workers ++ [workers.length]) (attempts + 1)
    else
      { workers := workers, attempts := attempts + 1, failed := true }
  else
    { workers := workers, attempts := attempts, failed := false }
termination_by max - workers.length
decreasing_by
  simp only [List.length_append, List.length_cons, List.length_nil]
  omega

/-- Outcome of `Pool::new`: the pool object that exists afterwards (the
Arc shared with the workers), the number of spawn attempts, and the value
`new` returns to the caller (`Ok` or the propagated spawn error). -/
structure NewOutcome where
  pool : PoolState
  attempts : Nat
  result : Except Error Unit

/-- `Pool::new(opts)`: clamp the queue size, create the bounded channel
with that capacity, construct the pool with an empty worker set, clamp the
worker count and run `spawn_until`, whose error the question mark
propagates as the return value of `new`. -/
def poolNew (spawnBudget : Nat) (opts : Opts) : NewOutcome :=
  let queue_size := rustClamp opts.queue_size QUEUE_LIMIT.1 QUEUE_LIMIT.2
  let worker_num := rustClamp opts.worker_num WORKER_LIMIT.1 WORKER_LIMIT.2
  let sr := spawnLoop spawnBudget worker_num [] 0
  { pool := { capacity := queue_size, sendClosed := false, queue := [],
              workers := sr.workers.map fun i => { id := i, panicked := false } },
    attempts := sr.attempts,
    result := if sr.failed then Except.error Error.spawnFailed else Except.ok () }

/-- The observable steps of `Pool::close`, in program order. -/
inductive CloseEvent where
  | channelClosed
  | workerJoined (id : Nat)
  | assertedEmpty (ok : Bool)
deriving DecidableEq

/-- Outcome of `Pool::close`: the pool state afterwards, the ordered
events, the effects of the commands the workers drained before
terminating, and whether a worker panic propagated to the caller through
the `expect` around the joins. -/
structure CloseOutcome where
  pool : PoolState
  events : List CloseEvent
  effects : List GetEffects
  panicPropagated : Bool

/-- `Pool::close`: close the sending half of the channel first; the
workers then drain the remaining queue, after which their blocking
receives return end-of-stream and the worker loops terminate; `close`
takes the join-handle vector and joins every worker, propagating any
worker panic; finally it asserts the channel is empty. The concurrent
drain by the workers is modelled by `worker_loop` over the queued
commands, which completes before the joins return. -/
def close (p : PoolState) : CloseOutcome :=
  let closedPool : PoolState := { p with sendClosed := true }
  let effects := worker_loop closedPool.queue
  let drained : PoolState := { closedPool with queue := [] }
  { pool := { drained with workers := [] },
    events := CloseEvent.channelClosed ::
      ((p.workers.map fun w => CloseEvent.workerJoined w.id) ++
        [CloseEvent.assertedEmpty drained.queue.isEmpty]),
    effects := effects,
    panicPropagated := p.workers.any fun w => w.panicked }

/-- `execute` against a given pool state: the channel send fails exactly
when the sending half is closed. -/
def executeOn (p : PoolState)
    (reply : Option (Except Error (Handle Lifetime.unbounded))) :
    Except Error (Handle Lifetime.engine) :=
  execute p.sendClosed reply

/-! ### Helper lemmas -/

theorem spawnLoop_unfold (budget max : Nat) (ws : List Nat) (att : Nat) :
    spawnLoop budget max ws att =
      if ws.length < max then
        if ws.length < budget then
          spawnLoop budget max (ws ++ [ws.length]) (att + 1)
        else
          { workers := ws, attempts := att + 1, failed := true }
      else
        { workers := ws, attempts := att, failed := false } := by
  rw [spawnLoop]

theorem spawnLoop_success :
    ∀ (n budget max : Nat) (ws : List Nat) (att : Nat),
      max - ws.length = n → max ≤ budget →
      spawnLoop budget max ws att =
        { workers := ws ++ List.range' ws.length (max - ws.length),
          attempts := att + (max - ws.length), failed := false } := by
  intro n
  induction n with
  | zero =>
      intro budget max ws att hn hb
      rw [spawnLoop_unfold]
      have hge : ¬ ws.length < max := by omega
      simp [hge, hn]
  | succ n ih =>
      intro budget max ws att hn hb
      have hlt : ws.length < max := by omega
      have hlb : ws.length < budget := by omega
      rw [spawnLoop_unfold]
      simp only [hlt, hlb, if_true]
      rw [ih budget max (ws ++ [ws.length]) (att + 1)
        (by simp only [List.length_append, List.length_cons, List.length_nil]; omega) hb]
      have hrange : List.range' ws.length (max - ws.length) =
          ws.length :: List.range' (ws.length + 1) (max - (ws.length + 1)) := by
        have hsplit : max - ws.length = (max - (ws.length + 1)) + 1 := by omega
        rw [hsplit, List.range'_succ]
      simp only [List.length_append, List.length_cons, List.length_nil,
        SpawnResult.mk.injEq]
      refine ⟨?_, by omega, trivial⟩
      rw [hrange]
      simp [List.append_assoc]

theorem spawnLoop_fail :
    ∀ (n budget max : Nat) (ws : List Nat) (att : Nat),
      max - ws.length = n → ws.length ≤ budget → budget < max →
      spawnLoop budget max ws att =
        { workers := ws ++ List.range' ws.length (budget - ws.length),
          attempts := att + (budget - ws.length) + 1, failed := true } := by
  intro n
  induction n with
  | zero =>
      intro budget max ws att hn hble hbm
      exfalso
      omega
  | succ n ih =>
      intro budget max ws att hn hble hbm
      have hlt : ws.length < max := by omega
      rw [spawnLoop_unfold]
      by_cases hlb : ws.length < budget
      · simp only [hlt, hlb, if_true]
        rw [ih budget max (ws ++ [ws.length]) (att + 1)
          (by simp only [List.length_append, List.length_cons, List.length_nil]; omega)
          (by simp only [List.length_append, List.length_cons, List.length_nil]; omega) hbm]
        have hrange : List.range' ws.length (budget - ws.length) =
            ws.length :: List.range' (ws.length + 1) (budget - (ws.length + 1)) := by
          have hsplit : budget - ws.length = (budget - (ws.length + 1)) + 1 := by omega
          rw [hsplit, List.range'_succ]
        simp only [List.length_append, List.length_cons, List.length_nil,
          SpawnResult.mk.injEq]
        refine ⟨?_, by omega, trivial⟩
        rw [hrange]
        simp [List.append_assoc]
      · have heq : ws.length = budget := by omega
        simp only [hlt, hlb, if_true, if_false]
        have hz : budget - ws.length = 0 := by omega
        simp [hz]

theorem worker_loop_eq_map (q : List GetTask) :
    worker_loop q =
      q.map fun t => worker_handle t.cmd t.recvDroppedAtCheck t.recvDroppedAtSend := by
  induction q with
  | nil => rfl
  | cons t rest ih => simp [worker_loop, ih]

theorem worker_loop_length (q : List GetTask) :
    (worker_loop q).length = q.length := by
  rw [worker_loop_eq_map, List.length_map]

theorem rustClamp_bounds (x lo hi : Nat) (h : lo ≤ hi) :
    lo ≤ rustClamp x lo hi ∧ rustClamp x lo hi ≤ hi := by
  unfold rustClamp
  split_ifs <;> omega

/-! ### Claim theorems -/

/-- Claim C1: for every command a worker processes, `map.get_blocking` is
invoked at most once and at most one send is attempted on the command's
oneshot sender; the worker loop consumes each dequeued command by exactly
one `worker_handle` dispatch, and the sender is taken out of the command
(so the command can never be re-sent) before the command is destroyed. -/
theorem c1_at_most_once_execution :
    (∀ (cmd : Get) (d1 d2 : Bool),
        (handle_get cmd d1 d2).getCalls ≤ 1 ∧
        (handle_get cmd d1 d2).sendAttempts ≤ 1 ∧
        (handle_get cmd d1 d2).resAfter = none) ∧
    (∀ q : List GetTask,
        worker_loop q =
          q.map (fun t => worker_handle t.cmd t.recvDroppedAtCheck t.recvDroppedAtSend) ∧
        (worker_loop q).length = q.length) := by
  constructor
  · intro cmd d1 d2
    unfold handle_get
    cases cmd.res <;> cases d1 <;> simp
  · intro q
    exact ⟨worker_loop_eq_map q, worker_loop_length q⟩

/-- Claim C2: narrowing after widening is the identity on every
`Result<Handle>` value, so the handle bytes (or the error) cross the
channel unchanged; in particular a handle with bytes 0x01 0x02 round-trips
to a handle with bytes 0x01 0x02. -/
theorem c2_lifetime_roundtrip_identity :
    (∀ r : Except Error (Handle Lifetime.engine),
        into_recv_result (into_send_result r) = r) ∧
    into_recv_result (into_send_result (Except.ok { bytes := [1, 2] })) =
      Except.ok ({ bytes := [1, 2] } : Handle Lifetime.engine) := by
  constructor
  · intro r
    cases r <;> rfl
  · rfl

/-- Claim C3: when the result receiver is already dropped as the worker
dispatches a `Get`, the worker takes the sender out (dropping it), makes
no `get_blocking` call and no send attempt, and returns to its loop
without panicking. -/
theorem c3_cancellation_elides_query (cmd : Get) (s : ResultSender) (d2 : Bool)
    (h : cmd.res = some s) :
    (handle_get cmd true d2).getCalls = 0 ∧
    (handle_get cmd true d2).sendAttempts = 0 ∧
    (handle_get cmd true d2).panicked = false ∧
    (handle_get cmd true d2).resAfter = none := by
  simp [handle_get, h]

/-- Witness for C3 at a concrete cancelled command. -/
theorem c3_cancellation_witness :
    (handle_get sampleGet true false).getCalls = 0 ∧
    (handle_get sampleGet true false).sendAttempts = 0 ∧
    (handle_get sampleGet true false).panicked = false ∧
    (handle_get sampleGet true false).resAfter = none :=
  c3_cancellation_elides_query sampleGet { id := 0 } false rfl

/-- Claim C4: `execute` fails exactly in the two pool-caused cases — a
closed channel makes the send fail and `execute` returns the submission
failure without consulting the reply, and a dropped sender (no reply)
yields the completion failure — and otherwise `execute` returns precisely
the result received from the worker. -/
theorem c4_execute_error_cases :
    (∀ reply, execute true reply = Except.error Error.sendFailed) ∧
    execute false none = Except.error Error.recvFailed ∧
    (∀ r, execute false (some r) = into_recv_result r) :=
  ⟨fun _ => rfl, rfl, fun _ => rfl⟩

/-- Claim C5: `close` closes the sending half first (the first observable
event), the workers drain every queued command and their blocking receives
then return end-of-stream so the loops terminate, every worker is joined
(a worker panic propagating to the caller), the channel-empty assertion
holds afterwards, and no `execute` against the closed pool succeeds. -/
theorem c5_shutdown_completeness (p : PoolState) :
    (close p).events.head? = some CloseEvent.channelClosed ∧
    (close p).events = CloseEvent.channelClosed ::
      ((p.workers.map fun w => CloseEvent.workerJoined w.id) ++
        [CloseEvent.assertedEmpty true]) ∧
    (close p).pool.sendClosed = true ∧
    (close p).pool.queue = [] ∧
    (close p).pool.workers = [] ∧
    (close p).effects.length = p.queue.length ∧
    ((close p).panicPropagated = p.workers.any fun w => w.panicked) ∧
    (∀ reply, executeOn (close p).pool reply = Except.error Error.sendFailed) :=
  ⟨rfl, rfl, rfl, rfl, rfl, worker_loop_length _, rfl, fun _ => rfl⟩

/-- Claim C6: a storage error is not retried — the worker makes exactly
one `get_blocking` call — and the error value is sent through and
returned by `execute` unchanged. -/
theorem c6_storage_error_passthrough (map : Map) (key : Key) (e : Error)
    (h : map.get_blocking key = Except.error e) :
    (handle_get { map := map, key := key, res := some { id := 0 } } false false).getCalls = 1 ∧
    (handle_get { map := map, key := key, res := some { id := 0 } } false false).sent =
      some (Except.error e) ∧
    runGet map key false false false = Except.error e := by
  refine ⟨rfl, ?_, ?_⟩
  · simp [handle_get, into_send_result, Except.map, h]
  · simp [runGet, prepare, worker_handle, handle_get, execute, sendCmd, recvAwait,
      into_send_result, into_recv_result, Except.map, h]

/-- Witness for C6: a map where key b"missing" is `NotFound`; `execute`
returns `NotFound`. -/
theorem c6_storage_error_witness :
    mockMap.get_blocking [109, 105, 115, 115, 105, 110, 103] =
      Except.error Error.notFound ∧
    runGet mockMap [109, 105, 115, 115, 105, 110, 103] false false false =
      Except.error Error.notFound :=
  ⟨rfl, (c6_storage_error_passthrough mockMap [109, 105, 115, 115, 105, 110, 103]
    Error.notFound rfl).2.2⟩

/-- Claim C7: `new` clamps the queue size to the interval from 1 to 8192
and the worker count to the interval from 1 to 512; queue size 0 gives
capacity 1, queue size one billion gives capacity 8192, and likewise for
the worker count; the capacity is part of the immutable pool state and is
unchanged by `close`. -/
theorem c7_construction_clamping :
    (∀ (qs wn budget : Nat),
        (poolNew budget { queue_size := qs, worker_num := wn }).pool.capacity =
          rustClamp qs QUEUE_LIMIT.1 QUEUE_LIMIT.2 ∧
        1 ≤ (poolNew budget { queue_size := qs, worker_num := wn }).pool.capacity ∧
        (poolNew budget { queue_size := qs, worker_num := wn }).pool.capacity ≤ 8192) ∧
    (poolNew 512 { queue_size := 0, worker_num := 4 }).pool.capacity = 1 ∧
    (poolNew 512 { queue_size := 1000000000, worker_num := 4 }).pool.capacity = 8192 ∧
    (∀ wn : Nat,
        (poolNew 512 { queue_size := 64, worker_num := wn }).pool.workers.length =
          rustClamp wn WORKER_LIMIT.1 WORKER_LIMIT.2) ∧
    (poolNew 512 { queue_size := 64, worker_num := 0 }).pool.workers.length = 1 ∧
    (poolNew 512 { queue_size := 64, worker_num := 1000000000 }).pool.workers.length = 512 ∧
    (∀ p : PoolState, (close p).pool.capacity = p.capacity) := by
  have hworkers : ∀ wn : Nat,
      (poolNew 512 { queue_size := 64, worker_num := wn }).pool.workers.length =
        rustClamp wn WORKER_LIMIT.1 WORKER_LIMIT.2 := by
    intro wn
    have hmax : rustClamp wn WORKER_LIMIT.1 WORKER_LIMIT.2 ≤ 512 := by
      have := rustClamp_bounds wn WORKER_LIMIT.1 WORKER_LIMIT.2 (by simp [WORKER_LIMIT])
      simpa [WORKER_LIMIT] using this.2
    show ((spawnLoop 512 (rustClamp wn WORKER_LIMIT.1 WORKER_LIMIT.2) [] 0).workers.map
        fun i => ({ id := i, panicked := false } : Worker)).length =
      rustClamp wn WORKER_LIMIT.1 WORKER_LIMIT.2
    rw [spawnLoop_success (rustClamp wn WORKER_LIMIT.1 WORKER_LIMIT.2) 512
      (rustClamp wn WORKER_LIMIT.1 WORKER_LIMIT.2) [] 0 rfl hmax]
    simp [List.length_range']
  refine ⟨?_, rfl, rfl, hworkers, ?_, ?_, fun p => rfl⟩
  · intro qs wn budget
    refine ⟨rfl, ?_, ?_⟩
    · have := rustClamp_bounds qs QUEUE_LIMIT.1 QUEUE_LIMIT.2 (by simp [QUEUE_LIMIT])
      simpa [poolNew, QUEUE_LIMIT] using this.1
    · have := rustClamp_bounds qs QUEUE_LIMIT.1 QUEUE_LIMIT.2 (by simp [QUEUE_LIMIT])
      simpa [poolNew, QUEUE_LIMIT] using this.2
  · rw [hworkers 0]
    decide
  · rw [hworkers 1000000000]
    simp [rustClamp, WORKER_LIMIT]

/-- Counterexample to C8 as stated: with a spawn budget of zero and a
requested worker count of two, `new` does not return the pool — the
question mark on `spawn_until` propagates the spawn error, so construction
fails with an error. -/
theorem c8_counterexample_new_fails :
    (poolNew 0 { queue_size := 1, worker_num := 2 }).result =
      Except.error Error.spawnFailed ∧
    (poolNew 0 { queue_size := 1, worker_num := 2 }).result ≠ Except.ok () := by
  have hs : spawnLoop 0 2 [] 0 = { workers := [], attempts := 1, failed := true } := by
    rw [spawnLoop_unfold]
    simp
  have hclamp : rustClamp 2 WORKER_LIMIT.1 WORKER_LIMIT.2 = 2 := by decide
  constructor
  · show (if (spawnLoop 0 (rustClamp 2 WORKER_LIMIT.1 WORKER_LIMIT.2) [] 0).failed then
        Except.error Error.spawnFailed else Except.ok ()) = Except.error Error.spawnFailed
    rw [hclamp, hs]
    simp
  · show (if (spawnLoop 0 (rustClamp 2 WORKER_LIMIT.1 WORKER_LIMIT.2) [] 0).failed then
        Except.error Error.spawnFailed else Except.ok ()) ≠ Except.ok ()
    rw [hclamp, hs]
    simp

/-- Claim C8 amended: if a worker-thread spawn fails during construction,
`new` propagates the error and fails the construction (it does not return
the pool to the caller); the workers spawned before the failure remain
attached to the pool object, and the failing spawn is not retried — the
number of spawn attempts is the number of successes plus one. -/
theorem c8_amended_spawn_failure (budget qs wn : Nat)
    (h : budget < rustClamp wn WORKER_LIMIT.1 WORKER_LIMIT.2) :
    (poolNew budget { queue_size := qs, worker_num := wn }).result =
      Except.error Error.spawnFailed ∧
    (poolNew budget { queue_size := qs, worker_num := wn }).pool.workers.length = budget ∧
    (poolNew budget { queue_size := qs, worker_num := wn }).attempts = budget + 1 := by
  have hf := spawnLoop_fail (rustClamp wn WORKER_LIMIT.1 WORKER_LIMIT.2) budget
    (rustClamp wn WORKER_LIMIT.1 WORKER_LIMIT.2) [] 0 rfl (by simp) h
  refine ⟨?_, ?_, ?_⟩
  · show (if (spawnLoop budget (rustClamp wn WORKER_LIMIT.1 WORKER_LIMIT.2) [] 0).failed then
        Except.error Error.spawnFailed else Except.ok ()) = Except.error Error.spawnFailed
    rw [hf]
    simp
  · show ((spawnLoop budget (rustClamp wn WORKER_LIMIT.1 WORKER_LIMIT.2) [] 0).workers.map
        fun i => ({ id := i, panicked := false } : Worker)).length = budget
    rw [hf]
    simp [List.length_range']
  · show (spawnLoop budget (rustClamp wn WORKER_LIMIT.1 WORKER_LIMIT.2) [] 0).attempts =
      budget + 1
    rw [hf]
    simp

/-- Witness for the amended C8 at spawn budget 0 and requested worker
count 2. -/
theorem c8_amended_witness :
    0 < rustClamp 2 WORKER_LIMIT.1 WORKER_LIMIT.2 ∧
    ((poolNew 0 { queue_size := 1, worker_num := 2 }).result =
        Except.error Error.spawnFailed ∧
      (poolNew 0 { queue_size := 1, worker_num := 2 }).pool.workers.length = 0 ∧
      (poolNew 0 { queue_size := 1, worker_num := 2 }).attempts = 0 + 1) :=
  ⟨by decide, c8_amended_spawn_failure 0 1 2 (by decide)⟩

/-- Counterexample to C9 as stated: the non-empty-key debug assertion is
the first statement of `handle_get`, before the cancellation fast path, so
a cancelled `Get` carrying an empty key does trigger the assertion. -/
theorem c9_counterexample_assert_fires :
    (handle_get emptyKeyGet true false).assertKeyFailed = true := rfl

/-- Claim C9 amended: the non-empty-key debug assertion is evaluated at
the top of `handle_get`, before the cancellation fast path — its outcome
equals the emptiness of the key regardless of cancellation state — so a
cancelled `Get` carrying an empty key does trigger the assertion, although
the query itself is still elided by the fast path. -/
theorem c9_amended_assert_before_fast_path :
    (∀ (cmd : Get) (d1 d2 : Bool),
        (handle_get cmd d1 d2).assertKeyFailed = cmd.key.isEmpty) ∧
    (∀ (map : Map) (s : ResultSender) (d2 : Bool),
        (handle_get { map := map, key := [], res := some s } true d2).assertKeyFailed = true ∧
        (handle_get { map := map, key := [], res := some s } true d2).getCalls = 0) := by
  constructor
  · intro cmd d1 d2
    unfold handle_get
    cases cmd.res <;> cases d1 <;> simp
  · intro map s d2
    exact ⟨rfl, rfl⟩

/-- Claim C10: when `execute` prepares a command whose `res` slot already
holds a sender, `prepare` returns normally — no panic, no error — simply
overwriting `res` with the fresh sender; the previous sender is displaced
and dropped without ever sending, so a receiver paired with it observes
cancellation (the oneshot receive yields the completion failure). -/
theorem c10_prepare_overwrites_res (g : Get) (s0 s1 : ResultSender)
    (h : g.res = some s0) :
    (prepare (Cmd.get g) s1).cmd = Cmd.get { g with res := some s1 } ∧
    (prepare (Cmd.get g) s1).dropped = some s0 ∧
    recvAwait (none : Option (Except Error (Handle Lifetime.unbounded))) =
      Except.error Error.recvFailed := by
  refine ⟨rfl, ?_, rfl⟩
  simp [prepare, h]

/-- Witness for C10 at a command already carrying sender id 5, prepared
with a fresh sender id 9. -/
theorem c10_prepare_witness :
    (prepare (Cmd.get preloadedGet) { id := 9 }).cmd =
      Cmd.get { map := mockMap, key := [107], res := some { id := 9 } } ∧
    (prepare (Cmd.get preloadedGet) { id := 9 }).dropped = some { id := 5 } ∧
    recvAwait (none : Option (Except Error (Handle Lifetime.unbounded))) =
      Except.error Error.recvFailed :=
  c10_prepare_overwrites_res preloadedGet { id := 5 } { id := 9 } rfl

end DbPool
